import Mathlib

/-!
Verification development for the PalmPot repository.

The repository is a single-page web application with two logical
components:

* a recipe request orchestrator (`generateNigerianRecipe` in the
  service module): builds a prompt, calls an external text-generation
  service, parses the JSON reply, calls an external image-generation
  service and, on image failure, derives a deterministic fallback
  stock-photo URL from the recipe name;
* a client persistence store (`handleSaveRecipe`, `handleDeleteRecipe`
  and the load-on-startup effect in the application component): keeps
  the saved-recipe list in a single local-storage slot.

External services (the text model, the image model, `JSON.parse`,
`JSON.stringify`, `encodeURIComponent`, local storage) are modelled as
explicit function parameters or outcome values; the control flow around
them is translated statement by statement from the source.
-/

namespace PalmPot

/-- The `Recipe` interface from `types.ts`. -/
structure Recipe where
  recipeName : String
  description : String
  ingredients : List String
  instructions : List String
deriving DecidableEq, Repr

/-- The `SavedRecipe` interface from `types.ts`: a `Recipe` plus `imageUrl`. -/
structure SavedRecipe extends Recipe where
  imageUrl : String
deriving DecidableEq, Repr

/-- The runtime value produced by `JSON.parse(recipeText)` in the service
module.  The TypeScript annotation `const recipe: Recipe = JSON.parse(...)`
is erased at runtime, so every field may be absent; an absent field is
`none`. -/
structure RecipeJson where
  recipeName : Option String
  description : Option String
  ingredients : Option (List String)
  instructions : Option (List String)
deriving DecidableEq, Repr

/-! ## Fallback signature hash

The source computes, over the UTF-16 code units of the recipe name:
`hash = ((hash << 5) - hash) + charCode; hash |= 0;` starting from 0,
then `Math.abs(hash)`.  JavaScript `<<` and `|0` truncate to a 32-bit
signed integer; the intermediate sum is exact in a float64. -/

/-- Truncation of an integer to a 32-bit signed integer, as performed by
JavaScript `|0` and `<<`. -/
def toInt32 (n : Int) : Int :=
  (n + 2147483648) % 4294967296 - 2147483648

/-- One iteration of the source loop:
`hash = ((hash << 5) - hash) + charCode; hash |= 0;`. -/
def codeHashStep (h : Int) (c : Nat) : Int :=
  toInt32 (toInt32 (h * 32) - h + c)

/-- One step of the spec's reference rolling hash:
`hash = hash*31 + charCode`, truncated to a 32-bit signed integer. -/
def specHashStep (h : Int) (c : Nat) : Int :=
  toInt32 (h * 31 + c)

/-- The source loop over a list of character codes. -/
def codeHash (l : List Nat) : Int :=
  l.foldl codeHashStep 0

/-- The spec's reference rolling hash over a list of character codes. -/
def specRollingHash (l : List Nat) : Int :=
  l.foldl specHashStep 0

/-- The character codes of a string, in order. -/
def strCodes (s : String) : List Nat :=
  s.data.map Char.toNat

/-- `Math.abs(hash)` of the final loop value: the fallback signature of a
recipe name. -/
def fallbackSig (name : String) : Nat :=
  (codeHash (strCodes name)).natAbs

/-! ## The generate orchestrator

`generateNigerianRecipe` from the service module.  The two external
service calls are summarised by their outcomes; `encodeURIComponent`
and `JSON.parse` are passed in as functions. -/

/-- A JavaScript exception: either an `Error` instance carrying a
message, or some other thrown value. -/
inductive JsThrown where
  | jsError (msg : String)
  | other
deriving DecidableEq, Repr

/-- Outcome of the `generateImages` call together with the extraction of
`generatedImages[0].image.imageBytes`: either the base64 bytes, or a
throw (of any kind). -/
inductive ImageOutcome where
  | ok (base64 : String)
  | thrown
deriving DecidableEq, Repr

/-- The error message built in the outer catch when the caught value is
an `Error`. -/
def failDetails (m : String) : String :=
  "Failed to generate recipe. Please try again. Details: " ++ m

/-- The error message built in the outer catch when the caught value is
not an `Error`. -/
def unknownErrorMsg : String :=
  "An unknown error occurred while generating the recipe."

/-- The message of the `TypeError` raised by
`recipe.recipeName.length` when `recipeName` is absent. -/
def undefinedLengthMsg : String :=
  "Cannot read properties of undefined (reading 'length')"

/-- The stock-photo endpoint base used by the fallback. -/
def unsplashBase : String :=
  "https://source.unsplash.com/1280x720/?"

/-- The inline-image base used on image success. -/
def dataUrlBase : String :=
  "data:image/jpeg;base64,"

/-- The fallback URL built in the inner catch:
`https://source.unsplash.com/1280x720/?${query}&sig=${sig}` with
`query = encodeURIComponent(recipeName + " nigerian food")` and
`sig = Math.abs(hash)`. -/
def fallbackImageUrl (enc : String → String) (name : String) : String :=
  unsplashBase ++ enc (name ++ " nigerian food") ++ "&sig=" ++ toString (fallbackSig name)

/-- Prompt construction from the source: base sentence chosen by the
truthiness of `searchQuery`, a fixed instruction, then optional cuisine
and meal-type clauses guarded by `x && x !== 'Any'`. -/
def buildPrompt (cuisine mealType searchQuery : String) : String :=
  let base :=
    if searchQuery ≠ "" then
      "Generate a recipe for the Nigerian dish: \"" ++ searchQuery ++ "\"."
    else
      "Generate a recipe for a popular and delicious Nigerian food."
  let p1 := base ++ " Provide a short, enticing description, a list of ingredients with quantities, and simple, easy-to-follow, step-by-step cooking instructions. The instructions should be beginner-friendly."
  let p2 :=
    if cuisine ≠ "" ∧ cuisine ≠ "Any" then
      p1 ++ " The recipe should be a classic dish from the " ++ cuisine ++ " cuisine of Nigeria."
    else p1
  if mealType ≠ "" ∧ mealType ≠ "Any" then
    p2 ++ " It should be suitable for " ++ mealType ++ "."
  else p2

/-- The body of `generateNigerianRecipe` after prompt construction:
text call, `JSON.parse` of the trimmed reply (no field validation),
image call with inner catch building the fallback URL, and the outer
catch wrapping any thrown `Error` in `failDetails`.  When `recipeName`
is absent and the fallback loop runs, reading `.length` of `undefined`
throws a `TypeError`, which the outer catch converts as well. -/
def generateNigerianRecipe (enc : String → String)
    (parse : String → Except String RecipeJson)
    (textRes : Except JsThrown String) (imageRes : ImageOutcome) :
    Except String (RecipeJson × String) :=
  match textRes with
  | .error (.jsError m) => .error (failDetails m)
  | .error .other => .error unknownErrorMsg
  | .ok raw =>
    match parse raw.trim with
    | .error m => .error (failDetails m)
    | .ok recipe =>
      match imageRes with
      | .ok b64 => .ok (recipe, dataUrlBase ++ b64)
      | .thrown =>
        match recipe.recipeName with
        | none => .error (failDetails undefinedLengthMsg)
        | some name => .ok (recipe, fallbackImageUrl enc name)

/-! ## The client persistence store

State of the component: the `savedRecipes` React state and the
`palmPotRecipes` local-storage slot (`none` when the key is absent).
`JSON.stringify` and `JSON.parse` are passed in as functions. -/

/-- React state plus the `palmPotRecipes` local-storage slot. -/
structure StoreState where
  savedRecipes : List SavedRecipe
  slot : Option String
deriving Repr

/-- Fresh session: empty collection, storage slot absent. -/
def initialState : StoreState :=
  ⟨[], none⟩

/-- `{ ...recipeToSave, imageUrl: imageUrlToSave }`. -/
def mkSavedRecipe (r : Recipe) (url : String) : SavedRecipe :=
  { toRecipe := r, imageUrl := url }

/-- `handleSaveRecipe` from the application component.  The guard
`!recipeToSave || !imageUrlToSave || savedRecipes.some(...)` returns
without touching state or storage; otherwise the new entry is appended
and the whole list is written back with `JSON.stringify`. -/
def handleSaveRecipe (stringify : List SavedRecipe → String) (st : StoreState)
    (recipeToSave : Option Recipe) (imageUrlToSave : String) : StoreState :=
  match recipeToSave with
  | none => st
  | some r =>
    if imageUrlToSave = "" then st
    else if st.savedRecipes.any (fun e => e.recipeName == r.recipeName) then st
    else
      let updated := st.savedRecipes ++ [mkSavedRecipe r imageUrlToSave]
      { savedRecipes := updated, slot := some (stringify updated) }

/-- `handleDeleteRecipe`: filters out entries whose name strictly equals
`recipeName` and writes the remaining list back unconditionally. -/
def handleDeleteRecipe (stringify : List SavedRecipe → String) (st : StoreState)
    (recipeName : String) : StoreState :=
  let updated := st.savedRecipes.filter (fun e => e.recipeName != recipeName)
  { savedRecipes := updated, slot := some (stringify updated) }

/-- The load-on-startup effect: `localStorage.getItem('palmPotRecipes')`
returns `null` (slot absent) or a string; an empty string is falsy and
skipped; a `JSON.parse` throw is caught and logged, leaving the initial
empty collection in place. -/
def loadSavedRecipes (parse : String → Except String (List SavedRecipe))
    (slot : Option String) : List SavedRecipe :=
  match slot with
  | none => []
  | some s =>
    if s = "" then []
    else
      match parse s with
      | .error _ => []
      | .ok l => l

/-! ## Theorems -/

/-- `toInt32` only depends on its argument modulo `2^32`, so a
pre-truncated summand can be replaced by the raw value. -/
theorem toInt32_add_left (a b : Int) : toInt32 (toInt32 a + b) = toInt32 (a + b) := by
  unfold toInt32
  omega

/-- One step of the source loop agrees with one step of the spec's
reference hash. -/
theorem codeHashStep_eq_specHashStep (h : Int) (c : Nat) :
    codeHashStep h c = specHashStep h c := by
  unfold codeHashStep specHashStep
  have hrw : toInt32 (h * 32) - h + (c : Int) = toInt32 (h * 32) + (c - h) := by ring
  rw [hrw, toInt32_add_left]
  ring_nf

/-- The two loops agree on every list of character codes. -/
theorem codeHash_eq_specRollingHash (l : List Nat) :
    codeHash l = specRollingHash l := by
  unfold codeHash specRollingHash
  have hstep : codeHashStep = specHashStep :=
    funext fun h => funext fun c => codeHashStep_eq_specHashStep h c
  rw [hstep]

/-- C3: the fallback signature loop of the source
(`hash = ((hash << 5) - hash) + charCode`, `hash |= 0`, then
`Math.abs`) computes, on every string, exactly the spec's reference
rolling hash (`hash = hash*31 + charCode` truncated to a 32-bit signed
integer each step, then absolute value); being a pure function of the
name, it is deterministic, and the signature is a non-negative
integer. -/
theorem fallback_sig_matches_spec (s : String) :
    codeHash (strCodes s) = specRollingHash (strCodes s)
    ∧ (fallbackSig s : Int) = |specRollingHash (strCodes s)|
    ∧ 0 ≤ (fallbackSig s : Int) :=
  ⟨codeHash_eq_specRollingHash _, by
    rw [fallbackSig, Int.abs_eq_natAbs, codeHash_eq_specRollingHash],
    Int.ofNat_nonneg _⟩

/-- C4: the constructed prompt is exactly the concatenation of a base
instruction (naming `searchQuery` precisely when it is non-empty,
otherwise asking for a popular and delicious dish), the fixed
description/ingredients/beginner-steps instruction, a cuisine clause
present iff `cuisine` is set and not "Any", and a meal-type clause
present iff `mealType` is set and not "Any". -/
theorem buildPrompt_structure (cuisine mealType searchQuery : String) :
    buildPrompt cuisine mealType searchQuery =
      (if searchQuery ≠ "" then
        "Generate a recipe for the Nigerian dish: \"" ++ searchQuery ++ "\"."
      else
        "Generate a recipe for a popular and delicious Nigerian food.")
      ++ " Provide a short, enticing description, a list of ingredients with quantities, and simple, easy-to-follow, step-by-step cooking instructions. The instructions should be beginner-friendly."
      ++ (if cuisine ≠ "" ∧ cuisine ≠ "Any" then
            " The recipe should be a classic dish from the " ++ cuisine ++ " cuisine of Nigeria."
          else "")
      ++ (if mealType ≠ "" ∧ mealType ≠ "Any" then
            " It should be suitable for " ++ mealType ++ "."
          else "") := by
  unfold buildPrompt
  split_ifs <;> simp only [String.append_empty, String.append_assoc]

/-- C8: when the text-generation call throws an `Error` with message
`m`, `generate` rejects with the "Failed to generate recipe" error,
whose message contains `m`; no branch of the code re-issues the
call. -/
theorem generate_text_error_surfaced (enc : String → String)
    (parse : String → Except String RecipeJson) (m : String)
    (imageRes : ImageOutcome) :
    generateNigerianRecipe enc parse (.error (.jsError m)) imageRes
      = .error (failDetails m)
    ∧ ∃ pre, failDetails m = pre ++ m :=
  ⟨rfl, ⟨"Failed to generate recipe. Please try again. Details: ", rfl⟩⟩

/-- C10: the guard of `handleSaveRecipe` returns before touching state
or storage whenever the recipe is absent or the image reference is the
empty string, even when no entry with that name exists: state and slot
are unchanged and nothing is appended. -/
theorem save_guard_noop (stringify : List SavedRecipe → String)
    (st : StoreState) (r : Recipe) (url : String) :
    handleSaveRecipe stringify st none url = st
    ∧ handleSaveRecipe stringify st (some r) "" = st :=
  ⟨rfl, by simp [handleSaveRecipe]⟩

/-- C1: whenever the text call returns and its reply parses to an
object carrying a recipe name, a throwing image call is swallowed by
the inner catch and `generate` resolves with the deterministic
stock-photo fallback URL: the Unsplash base, the URL-encoding of the
recipe name plus " nigerian food", and the signature derived from the
recipe name alone. -/
theorem generate_image_error_fallback (enc : String → String)
    (parse : String → Except String RecipeJson) (raw : String)
    (recipe : RecipeJson) (name : String)
    (hparse : parse raw.trim = .ok recipe)
    (hname : recipe.recipeName = some name) :
    generateNigerianRecipe enc parse (.ok raw) .thrown =
      .ok (recipe, unsplashBase ++ enc (name ++ " nigerian food")
        ++ "&sig=" ++ toString (fallbackSig name)) := by
  simp only [generateNigerianRecipe, hparse, hname, fallbackImageUrl]

/-- A parse outcome representing a reply that parses to a complete
recipe object. -/
def c1rec : RecipeJson :=
  ⟨some "Jollof Rice", some "A classic.", some ["rice"], some ["cook"]⟩

/-- A parse function returning that complete object. -/
def c1parse : String → Except String RecipeJson :=
  fun _ => .ok c1rec

/-- Witness for C1 at a concrete recipe name and identity encoder. -/
theorem generate_image_error_fallback_witness :
    generateNigerianRecipe (fun s => s) c1parse (.ok "x") .thrown =
      .ok (c1rec, unsplashBase ++ ("Jollof Rice" ++ " nigerian food")
        ++ "&sig=" ++ toString (fallbackSig "Jollof Rice")) :=
  generate_image_error_fallback (fun s => s) c1parse "x" c1rec "Jollof Rice" rfl rfl

/-- The runtime value of `JSON.parse("\x7b\x7d")`: an object with all
four required fields absent. -/
def c2rec : RecipeJson :=
  ⟨none, none, none, none⟩

/-- A parse step whose reply is valid JSON but misses every required
field. -/
def c2parse : String → Except String RecipeJson :=
  fun _ => .ok c2rec

/-- Counterexample for C2: a reply that parses as JSON but misses all
four required fields is not rejected — with a successful image call,
`generate` resolves with the partial data instead of failing. -/
theorem generate_missing_fields_counterexample :
    generateNigerianRecipe (fun s => s) c2parse (.ok "\x7b\x7d") (.ok "IMG")
      = .ok (c2rec, dataUrlBase ++ "IMG") :=
  rfl

/-- C2 amended: the code performs no client-side required-field check —
whatever object the parse step yields, fields present or not, is
accepted and `generate` proceeds with it.  With a successful image
call it resolves with the partial data; with a throwing image call it
resolves with the fallback URL whenever `recipeName` is present, and
only in the corner case of an absent `recipeName` does the fallback's
`TypeError` surface as the generation error. -/
theorem generate_no_field_validation (enc : String → String)
    (parse : String → Except String RecipeJson) (raw b64 : String)
    (recipe : RecipeJson)
    (hparse : parse raw.trim = .ok recipe) :
    generateNigerianRecipe enc parse (.ok raw) (.ok b64)
      = .ok (recipe, dataUrlBase ++ b64)
    ∧ (recipe.recipeName = none →
        generateNigerianRecipe enc parse (.ok raw) .thrown
          = .error (failDetails undefinedLengthMsg))
    ∧ (∀ name, recipe.recipeName = some name →
        generateNigerianRecipe enc parse (.ok raw) .thrown
          = .ok (recipe, fallbackImageUrl enc name)) := by
  refine ⟨?_, ?_, ?_⟩
  · simp only [generateNigerianRecipe, hparse]
  · intro hn
    simp only [generateNigerianRecipe, hparse, hn]
  · intro name hn
    simp only [generateNigerianRecipe, hparse, hn]

/-- Witness for the amended C2 at the all-fields-missing object. -/
theorem generate_no_field_validation_witness :
    generateNigerianRecipe (fun s => s) c2parse (.ok "x") (.ok "B64")
      = .ok (c2rec, dataUrlBase ++ "B64")
    ∧ (c2rec.recipeName = none →
        generateNigerianRecipe (fun s => s) c2parse (.ok "x") .thrown
          = .error (failDetails undefinedLengthMsg))
    ∧ (∀ name, c2rec.recipeName = some name →
        generateNigerianRecipe (fun s => s) c2parse (.ok "x") .thrown
          = .ok (c2rec, fallbackImageUrl (fun s => s) name)) :=
  generate_no_field_validation (fun s => s) c2parse "x" "B64" c2rec rfl

/-- `handleSaveRecipe` is idempotent at every state: a second save of
the same recipe and image reference is stopped by the duplicate-name
guard (or by the same input guard that stopped the first). -/
theorem handleSave_idem (stringify : List SavedRecipe → String)
    (r : Recipe) (url : String) (s : StoreState) :
    handleSaveRecipe stringify (handleSaveRecipe stringify s (some r) url) (some r) url
      = handleSaveRecipe stringify s (some r) url := by
  by_cases hu : url = ""
  · simp [handleSaveRecipe, hu]
  · by_cases ha : s.savedRecipes.any (fun e => e.recipeName == r.recipeName) = true
    · simp [handleSaveRecipe, hu, ha]
    · simp [handleSaveRecipe, hu, ha, List.any_append, mkSavedRecipe]

/-- C5: on a collection whose names are pairwise distinct, save keeps
them pairwise distinct (at most one entry per name); saving a name
already present is a no-op leaving state and storage untouched; and
repeated saves of the same recipe collapse to one — `n+1` saves equal
one save. -/
theorem save_unique_idempotent (stringify : List SavedRecipe → String)
    (st : StoreState) (r : Recipe) (url : String) (n : Nat)
    (hnodup : (st.savedRecipes.map fun e => e.recipeName).Nodup) :
    ((handleSaveRecipe stringify st (some r) url).savedRecipes.map fun e => e.recipeName).Nodup
    ∧ (st.savedRecipes.any (fun e => e.recipeName == r.recipeName) = true →
        handleSaveRecipe stringify st (some r) url = st)
    ∧ (fun s => handleSaveRecipe stringify s (some r) url)^[n + 1] st
        = handleSaveRecipe stringify st (some r) url := by
  have hiter : ∀ m : Nat,
      (fun s => handleSaveRecipe stringify s (some r) url)^[m + 1] st
        = handleSaveRecipe stringify st (some r) url := by
    intro m
    induction m with
    | zero => rfl
    | succ k ih =>
      rw [Function.iterate_succ_apply', ih]
      exact handleSave_idem stringify r url st
  refine ⟨?_, ?_, hiter n⟩
  · by_cases hu : url = ""
    · simpa [handleSaveRecipe, hu] using hnodup
    · by_cases ha : st.savedRecipes.any (fun e => e.recipeName == r.recipeName) = true
      · simpa [handleSaveRecipe, hu, ha] using hnodup
      · have hnotin : r.recipeName ∉ st.savedRecipes.map fun e => e.recipeName := by
          intro hmem
          apply ha
          rw [List.any_eq_true]
          rcases List.mem_map.mp hmem with ⟨e, he, hename⟩
          exact ⟨e, he, by simp [hename]⟩
        simp [handleSaveRecipe, hu, ha, mkSavedRecipe, List.nodup_append, hnodup, hnotin]
  · intro ha
    simp [handleSaveRecipe, ha]

/-- A serializer stub for the C5 witness. -/
def c5stringify : List SavedRecipe → String :=
  fun _ => "S"

/-- A concrete recipe for the store witnesses. -/
def wRecipe : Recipe :=
  ⟨"Jollof Rice", "A classic.", ["rice"], ["cook"]⟩

/-- Witness for C5 from the empty collection, three saves collapsing to
one. -/
theorem save_unique_idempotent_witness :
    ((handleSaveRecipe c5stringify initialState (some wRecipe) "u").savedRecipes.map
        fun e => e.recipeName).Nodup
    ∧ (initialState.savedRecipes.any (fun e => e.recipeName == wRecipe.recipeName) = true →
        handleSaveRecipe c5stringify initialState (some wRecipe) "u" = initialState)
    ∧ (fun s => handleSaveRecipe c5stringify s (some wRecipe) "u")^[2 + 1] initialState
        = handleSaveRecipe c5stringify initialState (some wRecipe) "u" :=
  save_unique_idempotent c5stringify initialState wRecipe "u" 2 (by simp [initialState])

/-- C6: from a fresh session (empty collection, absent slot), saving a
recipe with a non-empty image reference and then loading from the same
slot — with the deserializer inverting what the serializer wrote —
yields exactly one entry: the recipe extended with that image URL. -/
theorem save_load_round_trip (stringify : List SavedRecipe → String)
    (parse : String → Except String (List SavedRecipe))
    (r : Recipe) (url : String)
    (hurl : url ≠ "")
    (hne : stringify [mkSavedRecipe r url] ≠ "")
    (hparse : parse (stringify [mkSavedRecipe r url]) = .ok [mkSavedRecipe r url]) :
    loadSavedRecipes parse (handleSaveRecipe stringify initialState (some r) url).slot
      = [mkSavedRecipe r url] := by
  simp [handleSaveRecipe, initialState, hurl, loadSavedRecipes, hne, hparse]

/-- A serializer stub for the C6 witness. -/
def c6stringify : List SavedRecipe → String :=
  fun _ => "J"

/-- A deserializer stub inverting `c6stringify` on the stored list. -/
def c6parse : String → Except String (List SavedRecipe) :=
  fun _ => .ok [mkSavedRecipe wRecipe "u"]

/-- Witness for C6 at a concrete recipe and serializer pair. -/
theorem save_load_round_trip_witness :
    loadSavedRecipes c6parse (handleSaveRecipe c6stringify initialState (some wRecipe) "u").slot
      = [mkSavedRecipe wRecipe "u"] :=
  save_load_round_trip c6stringify c6parse wRecipe "u" (by decide) (by decide) rfl

/-- C7: delete filters out exactly the entries whose name equals the
given name, writes the remaining collection to storage, and returns
it; no surviving entry carries the deleted name, and deleting an
absent name leaves the collection unchanged. -/
theorem delete_removes_exactly (stringify : List SavedRecipe → String)
    (st : StoreState) (name : String) :
    (handleDeleteRecipe stringify st name).savedRecipes
      = st.savedRecipes.filter (fun e => e.recipeName != name)
    ∧ (handleDeleteRecipe stringify st name).slot
      = some (stringify ((handleDeleteRecipe stringify st name).savedRecipes))
    ∧ (∀ e ∈ (handleDeleteRecipe stringify st name).savedRecipes, e.recipeName ≠ name)
    ∧ ((∀ e ∈ st.savedRecipes, e.recipeName ≠ name) →
        (handleDeleteRecipe stringify st name).savedRecipes = st.savedRecipes) := by
  refine ⟨rfl, rfl, ?_, ?_⟩
  · intro e he
    have hp := List.of_mem_filter he
    simpa [bne_iff_ne] using hp
  · intro hall
    show st.savedRecipes.filter (fun e => e.recipeName != name) = st.savedRecipes
    apply List.filter_eq_self.mpr
    intro e he
    simpa [bne_iff_ne] using hall e he

/-- A serializer stub for the C7 witness. -/
def c7stringify : List SavedRecipe → String :=
  fun _ => "D"

/-- A two-entry state for the C7 witness. -/
def c7st : StoreState :=
  ⟨[mkSavedRecipe ⟨"A", "d", [], []⟩ "u", mkSavedRecipe ⟨"B", "d", [], []⟩ "u"], none⟩

/-- Witness for C7 deleting the name "A" from a two-entry state. -/
theorem delete_removes_exactly_witness :
    (handleDeleteRecipe c7stringify c7st "A").savedRecipes
      = c7st.savedRecipes.filter (fun e => e.recipeName != "A")
    ∧ (handleDeleteRecipe c7stringify c7st "A").slot
      = some (c7stringify ((handleDeleteRecipe c7stringify c7st "A").savedRecipes))
    ∧ (∀ e ∈ (handleDeleteRecipe c7stringify c7st "A").savedRecipes, e.recipeName ≠ "A")
    ∧ ((∀ e ∈ c7st.savedRecipes, e.recipeName ≠ "A") →
        (handleDeleteRecipe c7stringify c7st "A").savedRecipes = c7st.savedRecipes) :=
  delete_removes_exactly c7stringify c7st "A"

/-- C9: the startup load is total — an absent storage slot yields the
empty collection, and a slot whose content the JSON parse rejects is
caught and also yields the empty collection. -/
theorem load_error_resilient (parse : String → Except String (List SavedRecipe))
    (s m : String) :
    loadSavedRecipes parse none = []
    ∧ (parse s = .error m → loadSavedRecipes parse (some s) = []) := by
  refine ⟨rfl, fun h => ?_⟩
  by_cases hs : s = ""
  · simp [loadSavedRecipes, hs]
  · simp [loadSavedRecipes, hs, h]

/-- A parse stub that always throws, for the C9 witness. -/
def c9parse : String → Except String (List SavedRecipe) :=
  fun _ => .error "SyntaxError"

/-- Witness for C9 on an absent slot and on unparseable content. -/
theorem load_error_resilient_witness :
    loadSavedRecipes c9parse none = [] ∧ loadSavedRecipes c9parse (some "corrupt") = [] :=
  ⟨(load_error_resilient c9parse "corrupt" "SyntaxError").1,
   (load_error_resilient c9parse "corrupt" "SyntaxError").2 rfl⟩

end PalmPot
